import Mathlib

/-!
Shallow embedding of `src/main.py`: a FastAPI animal-shelter service backed
by a SQLite database with three tables (`users`, `animals`, `adoptions`) and
five endpoints (register user, register animal, list available animals,
directed adoption, random-eligible adoption).

The database is modelled as lists of rows in insertion (rowid) order, so
SQLAlchemy's `first()` on an unordered query is `List.find?` and autoincrement
primary keys are explicit counters.  `date.today()` is passed in as an opaque
day number.  Each endpoint maps an input and a store to a result (the JSON
payload or the raised error) and the store after the request; every `raise`
site in the source occurs before any write, and both adoption endpoints issue
their two writes (insert the `AdoptionDB` row, set `adoptado = True`) inside
one `commit()`, which the embedding reflects by building the new store in a
single step.
-/

namespace Shelter

deriving instance DecidableEq for Except

/-- A row of the `users` table (`UserDB`, main.py:59-64): the only columns
are `id`, `nombre` and `email` — `telefono` and `direccion` have no column. -/
structure UserRow where
  id : Nat
  nombre : String
  email : String
deriving Repr, DecidableEq

/-- A row of the `animals` table (`AnimalDB`, main.py:67-74).  `edad` is
nullable (the schema default is `None`); `Field(ge=0)` bars negative ages, so
present ages are naturals. -/
structure AnimalRow where
  id : Nat
  nombre : String
  edad : Option Nat
  tipo : String
  adoptado : Bool
deriving Repr, DecidableEq

/-- A row of the `adoptions` table (`AdoptionDB`, main.py:77-84); `fecha` is
an opaque day number. -/
structure AdoptionRow where
  fecha : Nat
  animal_id : Nat
  user_id : Nat
deriving Repr, DecidableEq

/-- The SQLite database: the three tables in rowid (insertion) order, plus
the next autoincrement primary key of each table (SQLite starts at 1). -/
structure Store where
  users : List UserRow
  animals : List AnimalRow
  adoptions : List AdoptionRow
  nextUserId : Nat
  nextAnimalId : Nat
deriving Repr, DecidableEq

/-- The freshly created database (`Base.metadata.create_all`, main.py:86). -/
def emptyStore : Store := ⟨[], [], [], 1, 1⟩

/-- Error taxonomy.  Each `raise` site of main.py is classified per spec §7:
pydantic validation failures (HTTP 422) are `validationError`; the
`HTTPException(400)` sites are duplicate / not-found / conflict according to
their `detail` message.  Messages are the source's literal strings. -/
inductive DomainError where
  | validationError : String → DomainError
  | duplicateError : String → DomainError
  | notFoundError : String → DomainError
  | conflictError : String → DomainError
deriving Repr, DecidableEq

/-! ### Pydantic schema validation -/

/-- Python regex word character `\w` (restricted to ASCII, which covers every
input the claims mention). -/
def isWordChar (c : Char) : Bool := c.isAlphanum || c == '_'

/-- The character class `[\w\.-]` of the email pattern. -/
def isLocalChar (c : Char) : Bool := isWordChar c || c == '.' || c == '-'

/-- Splits a character list at the first occurrence of `sep`; `none` when
`sep` does not occur. -/
def splitFirst (sep : Char) : List Char → Option (List Char × List Char)
  | [] => none
  | c :: cs =>
    if c = sep then some ([], cs)
    else
      match splitFirst sep cs with
      | none => none
      | some (a, b) => some (c :: a, b)

/-- Embedding of `validar_email` (main.py:109-114): `re.match(r'^[\w\.-]+@[\w\.-]+\.\w+$', s)`.
No character class of the pattern contains `@`, so a match forces exactly one
`@`; and the suffix matched by `\w+` can contain no dot, so the `\.` of the
pattern must consume the last dot after the `@`.  Hence: a nonempty
`[\w\.-]`-part, one `@`, a nonempty `[\w\.-]`-part, a dot, a nonempty
`\w`-part. -/
def emailOk (s : String) : Bool :=
  match splitFirst '@' s.toList with
  | none => false
  | some (loc, dom) =>
    if loc.isEmpty then false
    else if !loc.all isLocalChar then false
    else if dom.any (fun c => c = '@') then false
    else
      match splitFirst '.' dom.reverse with
      | none => false
      | some (tldRev, hostRev) =>
        let tld := tldRev.reverse
        let host := hostRev.reverse
        !tld.isEmpty && tld.all isWordChar && !host.isEmpty && host.all isLocalChar

/-- Input shape of POST `/users/` (`UsersSchema`, main.py:91-95): `telefono`
is optional with default `None`; `Field(ge=0)` bars negative phones, so a
provided phone is a natural number. -/
structure UsersSchemaInput where
  nombre : String
  email : String
  telefono : Option Nat
  direccion : String
deriving Repr, DecidableEq

/-- Effective `UsersSchema` validation (main.py:97-114).  The class defines
two validators under the same method name `lenght_name` (main.py:98 for
`nombre`, main.py:104 for `telefono`); Python class-body semantics keep only
the second, so the name-length check on `nombre` never registers with
pydantic and only the phone validator (`len(str(value)) != 9`) and
`validar_email` run.  A default (absent) `telefono` is not validated.
Returns the first failing field's error, `none` when the input is accepted. -/
def usersSchemaError (u : UsersSchemaInput) : Option DomainError :=
  if !emailOk u.email then some (.validationError "El correo no está bien formado")
  else
    match u.telefono with
    | none => none
    | some n =>
      if (Nat.repr n).length ≠ 9 then
        some (.validationError "El nombre debe tener 9 dígitos")
      else none

/-- Input shape of POST `/animals/` (`AnimalSchema`, main.py:117-120):
`edad` is optional with default `None`; `Field(ge=0)` bars negative ages. -/
structure AnimalSchemaInput where
  nombre : String
  edad : Option Nat
  tipo : String
deriving Repr, DecidableEq

/-- Embedding of `validar_tipo` (main.py:128-132): accepted exactly when the value is in
`["perro", "gato"]` (the spec's `dog` / `cat` enum values). -/
def validar_tipo_ok (t : String) : Bool := t == "perro" || t == "gato"

/-- Embedding of the `AnimalSchema` validation (main.py:117-132): `lenght_name_1` requires
`len(nombre) >= 3`, `validar_tipo` requires a kind in `{perro, gato}`. -/
def animalSchemaError (a : AnimalSchemaInput) : Option DomainError :=
  if a.nombre.length < 3 then
    some (.validationError "El nombre debe tener al menos 3 caracteres")
  else if !validar_tipo_ok a.tipo then
    some (.validationError "El tipo debe ser 'perro' o 'gato'")
  else none

/-! ### Endpoints -/

/-- Response payload of POST `/users/` (main.py:162-169, the `usuario` part). -/
structure UserResponse where
  id : Nat
  nombre : String
  email : String
deriving Repr, DecidableEq

/-- Response payload of POST `/animals/` (main.py:188-195, the `animal`
part — it echoes `id`, `nombre`, `edad` but not `tipo`). -/
structure AnimalResponse where
  id : Nat
  nombre : String
  edad : Option Nat
deriving Repr, DecidableEq

/-- Response payload of the adoption endpoints (main.py:245-251, 286-292). -/
structure AdoptResponse where
  animal_name : String
  user_name : String
deriving Repr, DecidableEq

/-- POST `/users/` (`create_user`, main.py:146-169): pydantic validation,
then duplicate lookup by `email` with `first()`, then insert of a `UserDB`
row holding only `nombre` and `email`, echoing the stored row. -/
def create_user (s : Store) (user : UsersSchemaInput) :
    Except DomainError UserResponse × Store :=
  match usersSchemaError user with
  | some e => (.error e, s)
  | none =>
    match s.users.find? (fun r => r.email == user.email) with
    | some _ => (.error (.duplicateError "El usuario ya está registrado"), s)
    | none =>
      let row : UserRow := ⟨s.nextUserId, user.nombre, user.email⟩
      (.ok ⟨row.id, row.nombre, row.email⟩,
        { s with users := s.users ++ [row], nextUserId := s.nextUserId + 1 })

/-- POST `/animals/` (`create_animal`, main.py:172-195): pydantic validation,
then duplicate lookup by `nombre`, then insert with `adoptado` defaulted to
`False` (main.py:74). -/
def create_animal (s : Store) (animal : AnimalSchemaInput) :
    Except DomainError AnimalResponse × Store :=
  match animalSchemaError animal with
  | some e => (.error e, s)
  | none =>
    match s.animals.find? (fun r => r.nombre == animal.nombre) with
    | some _ => (.error (.duplicateError "El animal ya está registrado"), s)
    | none =>
      let row : AnimalRow := ⟨s.nextAnimalId, animal.nombre, animal.edad, animal.tipo, false⟩
      (.ok ⟨row.id, row.nombre, row.edad⟩,
        { s with animals := s.animals ++ [row], nextAnimalId := s.nextAnimalId + 1 })

/-- Python truthiness of the optional `tipo` query parameter: `if tipo:` is
taken when `tipo` is neither `None` nor the empty string. -/
def tipoTruthy : Option String → Bool
  | some t => t ≠ ""
  | none => false

/-- The availability query duplicated verbatim at main.py:201-204 and
main.py:225-228: rows with `adoptado == False`, additionally filtered by
`tipo` when that parameter is truthy. -/
def availQuery (s : Store) (tipo : Option String) : List AnimalRow :=
  if tipoTruthy tipo then
    s.animals.filter (fun a => a.adoptado == false && some a.tipo == tipo)
  else
    s.animals.filter (fun a => a.adoptado == false)

/-- GET `/disponibles` (`get_available_animals`, main.py:198-212): the
availability query rendered as `(nombre, edad, tipo)` tuples; the session
performs no write, so the store passes through unchanged. -/
def get_available_animals (s : Store) (tipo : Option String) :
    List (String × Option Nat × String) × Store :=
  ((availQuery s tipo).map (fun a => (a.nombre, a.edad, a.tipo)), s)

/-- Age ranking used by `ORDER BY edad DESC ... first()` (main.py:226-228): it ranks a nullable age
with SQL `NULL` below every integer (SQLite sorts `NULL` lowest, hence last
under `DESC`). -/
def edadRank : Option Nat → Nat
  | none => 0
  | some n => n + 1

/-- The row returned by `first()` after `ORDER BY edad DESC`: an element of
maximum `edadRank`, the earliest-inserted one among ties (SQLite yields ties
in rowid order). -/
def selectMaxEdad : List AnimalRow → Option AnimalRow
  | [] => none
  | a :: rest =>
    match selectMaxEdad rest with
    | none => some a
    | some b => if edadRank a.edad < edadRank b.edad then some b else some a

/-- The two writes both adoption endpoints commit together (main.py:235-243
and main.py:276-284): insert an `AdoptionDB` row `(today, cid, uid)` and set
`adoptado = True` on the `animals` row whose primary key is `cid`.  Both
writes flush in the same `commit()`, so the embedding makes them one step. -/
def adoptApply (s : Store) (today uid cid : Nat) : Store :=
  { s with
    adoptions := s.adoptions ++ [⟨today, cid, uid⟩],
    animals := s.animals.map (fun a =>
      if a.id == cid then { a with adoptado := true } else a) }

/-- POST `/adopcion/random/` (`adopt_animal`, main.py:215-251): look up the
user by name; run the availability query ordered by age descending and take
`first()`; fail when no candidate exists; otherwise commit the two adoption
writes and echo the chosen animal's name. -/
def adopt_animal_random (s : Store) (today : Nat) (user_name : String)
    (tipo : Option String) : Except DomainError AdoptResponse × Store :=
  match s.users.find? (fun r => r.nombre == user_name) with
  | none => (.error (.notFoundError "El usuario no está registrado"), s)
  | some user_adopt =>
    match selectMaxEdad (availQuery s tipo) with
    | none => (.error (.notFoundError "No hay animales disponibles para adopción"), s)
    | some animal_adopt =>
      (.ok ⟨animal_adopt.nombre, user_name⟩,
        adoptApply s today user_adopt.id animal_adopt.id)

/-- POST `/adopcion/` (`adopt_animal`, main.py:254-292): look up the user by
name, the animal by name, re-check availability by primary key with
`adoptado == False`; on success commit the two adoption writes (the
`db.close()` at main.py:274 merely ends the read transaction — the session
begins a new one, and both writes still flush in the single `commit()` at
main.py:284) and echo the request's names. -/
def adopt_animal_directed (s : Store) (today : Nat)
    (user_name animal_name : String) : Except DomainError AdoptResponse × Store :=
  match s.users.find? (fun r => r.nombre == user_name) with
  | none => (.error (.notFoundError "El usuario no está registrado"), s)
  | some user_adopt =>
    match s.animals.find? (fun r => r.nombre == animal_name) with
    | none => (.error (.notFoundError "El animal no está registrado"), s)
    | some animal_adopt =>
      match s.animals.find? (fun a => a.id == animal_adopt.id && a.adoptado == false) with
      | none => (.error (.conflictError "El animal no está disponible para adopción"), s)
      | some _ =>
        (.ok ⟨animal_name, user_name⟩,
          adoptApply s today user_adopt.id animal_adopt.id)

/-! ### Store well-formedness and the adoption invariant -/

/-- Number of `adoptions` rows whose `animal_id` is `animalId`. -/
def countAdoptions (s : Store) (animalId : Nat) : Nat :=
  (s.adoptions.filter (fun r => r.animal_id == animalId)).length

/-- Column `animals.id` is a primary key: ids are pairwise distinct. -/
def UniqueAnimalIds (s : Store) : Prop :=
  (s.animals.map (fun a => a.id)).Nodup

/-- The adoption-link invariant in inductive form: an adopted animal has
exactly one adoption row, an available one has none. -/
def AdoptionInv (s : Store) : Prop :=
  ∀ a ∈ s.animals, countAdoptions s a.id = if a.adoptado then 1 else 0

/-- The adoption-link invariant as the spec words it: an animal is adopted
iff exactly one adoption row carries its id. -/
def AdoptedIffOneAdoption (s : Store) : Prop :=
  ∀ a ∈ s.animals, (a.adoptado = true ↔ countAdoptions s a.id = 1)

theorem adoptionInv_iff {s : Store} (h : AdoptionInv s) : AdoptedIffOneAdoption s := by
  intro a ha
  rw [h a ha]
  by_cases hb : a.adoptado = true <;> simp [hb]

theorem unique_ids_eq {s : Store} (hU : UniqueAnimalIds s) {a b : AnimalRow}
    (ha : a ∈ s.animals) (hb : b ∈ s.animals) (h : a.id = b.id) : a = b :=
  List.inj_on_of_nodup_map hU ha hb h

theorem countAdoptions_adoptApply (s : Store) (today uid cid x : Nat) :
    countAdoptions (adoptApply s today uid cid) x
      = countAdoptions s x + (if cid = x then 1 else 0) := by
  unfold countAdoptions adoptApply
  by_cases h : cid = x <;> simp [List.filter_append, h]

/-- Committing the two adoption writes for an animal that is present and
still available re-establishes the adoption-link invariant. -/
theorem adoptApply_inv {s : Store} (hU : UniqueAnimalIds s) (hI : AdoptionInv s)
    {c : AnimalRow} (hc : c ∈ s.animals) (hcf : c.adoptado = false)
    (today uid : Nat) : AdoptionInv (adoptApply s today uid c.id) := by
  intro a' ha'
  have hanimals : (adoptApply s today uid c.id).animals
      = s.animals.map (fun a => if a.id == c.id then { a with adoptado := true } else a) := rfl
  rw [hanimals, List.mem_map] at ha'
  obtain ⟨a, ha, rfl⟩ := ha'
  by_cases hid : a.id = c.id
  · have hac : a = c := unique_ids_eq hU ha hc hid
    subst hac
    simp [countAdoptions_adoptApply, hI a ha, hcf]
  · have hid2 : ¬ c.id = a.id := fun h => hid h.symm
    simp [countAdoptions_adoptApply, hid, hid2, hI a ha]

/-! ### Properties of the max-age selection -/

theorem selectMaxEdad_eq_none : ∀ {l : List AnimalRow},
    selectMaxEdad l = none ↔ l = [] := by
  intro l
  cases l with
  | nil => simp [selectMaxEdad]
  | cons a rest =>
    simp only [selectMaxEdad]
    cases hr : selectMaxEdad rest with
    | none => simp
    | some b =>
      by_cases hcmp : edadRank a.edad < edadRank b.edad <;> simp [hcmp]

theorem selectMaxEdad_mem : ∀ {l : List AnimalRow} {c : AnimalRow},
    selectMaxEdad l = some c → c ∈ l := by
  intro l
  induction l with
  | nil => intro c h; simp [selectMaxEdad] at h
  | cons a rest ih =>
    intro c h
    rw [selectMaxEdad] at h
    cases hr : selectMaxEdad rest with
    | none =>
      rw [hr] at h
      injection h with h2
      subst h2
      exact List.mem_cons_self a rest
    | some b =>
      rw [hr] at h
      dsimp only at h
      by_cases hcmp : edadRank a.edad < edadRank b.edad
      · rw [if_pos hcmp] at h
        injection h with h2
        subst h2
        exact List.mem_cons_of_mem a (ih hr)
      · rw [if_neg hcmp] at h
        injection h with h2
        subst h2
        exact List.mem_cons_self a rest

theorem selectMaxEdad_max : ∀ {l : List AnimalRow} {c : AnimalRow},
    selectMaxEdad l = some c → ∀ b ∈ l, edadRank b.edad ≤ edadRank c.edad := by
  intro l
  induction l with
  | nil => intro c h; simp [selectMaxEdad] at h
  | cons a rest ih =>
    intro c h x hx
    rw [selectMaxEdad] at h
    cases hr : selectMaxEdad rest with
    | none =>
      rw [hr] at h
      injection h with h2
      subst h2
      have : rest = [] := selectMaxEdad_eq_none.mp hr
      subst this
      simp at hx
      subst hx
      exact Nat.le_refl _
    | some b =>
      rw [hr] at h
      dsimp only at h
      by_cases hcmp : edadRank a.edad < edadRank b.edad
      · rw [if_pos hcmp] at h
        injection h with h2
        subst h2
        rcases List.mem_cons.mp hx with h3 | h3
        · subst h3; exact Nat.le_of_lt hcmp
        · exact ih hr x h3
      · rw [if_neg hcmp] at h
        injection h with h2
        subst h2
        rcases List.mem_cons.mp hx with h3 | h3
        · subst h3; exact Nat.le_refl _
        · exact Nat.le_trans (ih hr x h3) (Nat.le_of_not_lt hcmp)

/-! ### The availability query, filter unified -/

/-- How the availability query treats the optional kind filter: a truthy
filter must equal the animal's `tipo`; `None` and `""` (both falsy in
Python) match every animal. -/
def matchesFilter (tipo : Option String) (a : AnimalRow) : Bool :=
  if tipoTruthy tipo then some a.tipo == tipo else true

theorem availQuery_eq (s : Store) (tipo : Option String) :
    availQuery s tipo
      = s.animals.filter (fun a => a.adoptado == false && matchesFilter tipo a) := by
  unfold availQuery matchesFilter
  by_cases h : tipoTruthy tipo <;> simp [h]

theorem mem_availQuery {s : Store} {tipo : Option String} {a : AnimalRow} :
    a ∈ availQuery s tipo
      ↔ a ∈ s.animals ∧ a.adoptado = false ∧ matchesFilter tipo a = true := by
  rw [availQuery_eq, List.mem_filter]
  simp [Bool.and_eq_true, and_assoc]

/-! ### C1 -/

/-- C1: for both adoption operations (directed and random-eligible), the
insertion of the Adoption row and the flip of the chosen animal's `adoptado`
flag happen together: starting from any store satisfying the adoption-link
invariant (with `animals.id` a primary key), after the operation completes —
successfully or with an error — an animal has `adoptado = true` iff exactly
one adoption row carries its id; neither write persists without the other. -/
theorem adopt_preserves_adoption_link (s : Store) (today : Nat)
    (un an : String) (tipo : Option String)
    (hU : UniqueAnimalIds s) (hI : AdoptionInv s) :
    (AdoptionInv (adopt_animal_directed s today un an).2
      ∧ AdoptedIffOneAdoption (adopt_animal_directed s today un an).2)
    ∧ (AdoptionInv (adopt_animal_random s today un tipo).2
      ∧ AdoptedIffOneAdoption (adopt_animal_random s today un tipo).2) := by
  have hdir : AdoptionInv (adopt_animal_directed s today un an).2 := by
    unfold adopt_animal_directed
    cases hu : s.users.find? (fun r => r.nombre == un) with
    | none => exact hI
    | some u =>
      cases ha : s.animals.find? (fun r => r.nombre == an) with
      | none => exact hI
      | some animal =>
        dsimp only
        cases hav : s.animals.find? (fun a => a.id == animal.id && a.adoptado == false) with
        | none => exact hI
        | some avail =>
          have hmem := List.mem_of_find?_eq_some hav
          have hp := List.find?_some hav
          simp only [Bool.and_eq_true, beq_iff_eq] at hp
          show AdoptionInv (adoptApply s today u.id animal.id)
          rw [← hp.1]
          exact adoptApply_inv hU hI hmem hp.2 today u.id
  have hrand : AdoptionInv (adopt_animal_random s today un tipo).2 := by
    unfold adopt_animal_random
    cases hu : s.users.find? (fun r => r.nombre == un) with
    | none => exact hI
    | some u =>
      cases hc : selectMaxEdad (availQuery s tipo) with
      | none => exact hI
      | some c =>
        have hmem := mem_availQuery.mp (selectMaxEdad_mem hc)
        exact adoptApply_inv hU hI hmem.1 hmem.2.1 today u.id
  exact ⟨⟨hdir, adoptionInv_iff hdir⟩, ⟨hrand, adoptionInv_iff hrand⟩⟩

/-- Concrete store for the C1 witness: one registered user, one available
dog, one already-adopted cat whose single adoption row is recorded. -/
def w1Store : Store :=
  { users := [⟨1, "Alicia", "a@b.co"⟩],
    animals := [⟨1, "Rex", some 4, "perro", false⟩, ⟨2, "Mia", some 7, "gato", true⟩],
    adoptions := [⟨17, 2, 1⟩],
    nextUserId := 2, nextAnimalId := 3 }

theorem adopt_preserves_adoption_link_witness :
    UniqueAnimalIds w1Store ∧ AdoptionInv w1Store
    ∧ ((AdoptionInv (adopt_animal_directed w1Store 20 "Alicia" "Rex").2
        ∧ AdoptedIffOneAdoption (adopt_animal_directed w1Store 20 "Alicia" "Rex").2)
      ∧ (AdoptionInv (adopt_animal_random w1Store 20 "Alicia" (some "perro")).2
        ∧ AdoptedIffOneAdoption (adopt_animal_random w1Store 20 "Alicia" (some "perro")).2)) :=
  ⟨by unfold UniqueAnimalIds; decide,
   by unfold AdoptionInv countAdoptions; decide,
   adopt_preserves_adoption_link w1Store 20 "Alicia" "Rex" (some "perro")
     (by unfold UniqueAnimalIds; decide)
     (by unfold AdoptionInv countAdoptions; decide)⟩

/-! ### C2 -/

/-- The candidate set of a random-eligible adoption, phrased with the
unified filter: available animals whose `tipo` matches a truthy filter. -/
def randomCandidates (s : Store) (tipo : Option String) : List AnimalRow :=
  s.animals.filter (fun a => a.adoptado == false && matchesFilter tipo a)

/-- C2 (amended): for a registered user, with the falsy kind filters `None`
and `""` both matching every animal (the code guards the filter with Python
truthiness), the random-eligible adoption selects a candidate of maximum age
— already-adopted animals are never candidates, and `NULL` ages rank below
every age — and reports it; when no candidate exists it fails with
`NotFoundError` (`"No hay animales disponibles para adopción"`) leaving the
store unchanged. -/
theorem adopt_random_picks_oldest (s : Store) (today : Nat) (un : String)
    (tipo : Option String) (u : UserRow)
    (hu : s.users.find? (fun r => r.nombre == un) = some u) :
    (randomCandidates s tipo = [] →
      adopt_animal_random s today un tipo
        = (.error (.notFoundError "No hay animales disponibles para adopción"), s))
    ∧ (randomCandidates s tipo ≠ [] →
      ∃ c, c ∈ randomCandidates s tipo
        ∧ c.adoptado = false
        ∧ (∀ b ∈ randomCandidates s tipo, edadRank b.edad ≤ edadRank c.edad)
        ∧ (∀ b ∈ randomCandidates s tipo, ∀ nb, b.edad = some nb →
            ∃ nc, c.edad = some nc ∧ nb ≤ nc)
        ∧ (adopt_animal_random s today un tipo).1 = .ok ⟨c.nombre, un⟩) := by
  have hQ : availQuery s tipo = randomCandidates s tipo := availQuery_eq s tipo
  constructor
  · intro hnil
    have h0 : availQuery s tipo = [] := by rw [hQ, hnil]
    have hsel : selectMaxEdad (availQuery s tipo) = none := selectMaxEdad_eq_none.mpr h0
    unfold adopt_animal_random
    rw [hu]
    dsimp only
    rw [hsel]
  · intro hne
    cases hsel : selectMaxEdad (availQuery s tipo) with
    | none =>
      exact absurd (by rw [← hQ]; exact selectMaxEdad_eq_none.mp hsel) hne
    | some c =>
      refine ⟨c, ?_, ?_, ?_, ?_, ?_⟩
      · rw [← hQ]; exact selectMaxEdad_mem hsel
      · exact (mem_availQuery.mp (selectMaxEdad_mem hsel)).2.1
      · intro b hb
        exact selectMaxEdad_max hsel b (by rw [hQ]; exact hb)
      · intro b hb nb hnb
        have hle := selectMaxEdad_max hsel b (by rw [hQ]; exact hb)
        rw [hnb] at hle
        cases hc : c.edad with
        | none =>
          rw [hc] at hle
          simp [edadRank] at hle
        | some nc =>
          rw [hc] at hle
          simp only [edadRank] at hle
          exact ⟨nc, rfl, Nat.le_of_succ_le_succ hle⟩
      · unfold adopt_animal_random
        rw [hu]
        dsimp only
        rw [hsel]

/-- Concrete store for C2: user Alicia, available dogs Luna (age 2) and Rex
(age 7), and an already-adopted cat Mia (age 7) with her adoption row. -/
def c2Store : Store :=
  { users := [⟨1, "Alicia", "a@b.co"⟩],
    animals := [⟨1, "Luna", some 2, "perro", false⟩, ⟨2, "Rex", some 7, "perro", false⟩,
                ⟨3, "Mia", some 7, "gato", true⟩],
    adoptions := [⟨10, 3, 1⟩],
    nextUserId := 2, nextAnimalId := 4 }

/-- C2 counterexample: with the kind filter `""`, no animal's `tipo` matches
the filter, so the claim as stated demands `NotFoundError("no animals
available")` with the store unchanged; the code treats the falsy filter as
absent, adopts Rex, and mutates the store. -/
theorem adopt_random_claim_cex :
    c2Store.animals.filter (fun a => a.adoptado == false && a.tipo == "") = []
    ∧ (adopt_animal_random c2Store 11 "Alicia" (some "")).1 = .ok ⟨"Rex", "Alicia"⟩
    ∧ (adopt_animal_random c2Store 11 "Alicia" (some "")).2 ≠ c2Store := by
  decide

theorem adopt_random_picks_oldest_witness :
    c2Store.users.find? (fun r => r.nombre == "Alicia") = some ⟨1, "Alicia", "a@b.co"⟩
    ∧ randomCandidates c2Store (some "perro") ≠ []
    ∧ ∃ c, c ∈ randomCandidates c2Store (some "perro")
        ∧ c.adoptado = false
        ∧ (∀ b ∈ randomCandidates c2Store (some "perro"), edadRank b.edad ≤ edadRank c.edad)
        ∧ (∀ b ∈ randomCandidates c2Store (some "perro"), ∀ nb, b.edad = some nb →
            ∃ nc, c.edad = some nc ∧ nb ≤ nc)
        ∧ (adopt_animal_random c2Store 11 "Alicia" (some "perro")).1 = .ok ⟨c.nombre, "Alicia"⟩ :=
  ⟨by decide, by decide,
   (adopt_random_picks_oldest c2Store 11 "Alicia" (some "perro") ⟨1, "Alicia", "a@b.co"⟩
      (by decide)).2 (by decide)⟩

/-! ### C3 -/

/-- C3: a directed adoption naming an existing user and an existing but
already-adopted animal fails with `ConflictError`
(`"El animal no está disponible para adopción"`), leaves the store
untouched, and the adoption table afterwards still holds exactly one row for
that animal. -/
theorem adopt_directed_conflict_on_adopted (s : Store) (today : Nat)
    (un an : String) (u : UserRow) (animal : AnimalRow)
    (hU : UniqueAnimalIds s)
    (hu : s.users.find? (fun r => r.nombre == un) = some u)
    (ha : s.animals.find? (fun r => r.nombre == an) = some animal)
    (had : animal.adoptado = true)
    (hcount : countAdoptions s animal.id = 1) :
    adopt_animal_directed s today un an
      = (.error (.conflictError "El animal no está disponible para adopción"), s)
    ∧ countAdoptions (adopt_animal_directed s today un an).2 animal.id = 1 := by
  have hmem := List.mem_of_find?_eq_some ha
  have hav : s.animals.find? (fun a => a.id == animal.id && a.adoptado == false) = none := by
    rw [List.find?_eq_none]
    intro x hx
    simp only [Bool.and_eq_true, beq_iff_eq]
    rintro ⟨hxid, hxf⟩
    have hxa : x = animal := unique_ids_eq hU hx hmem hxid
    rw [hxa, had] at hxf
    exact Bool.noConfusion hxf
  have heq : adopt_animal_directed s today un an
      = (.error (.conflictError "El animal no está disponible para adopción"), s) := by
    unfold adopt_animal_directed
    rw [hu]
    dsimp only
    rw [ha]
    dsimp only
    rw [hav]
  exact ⟨heq, by rw [heq]; exact hcount⟩

theorem adopt_directed_conflict_on_adopted_witness :
    adopt_animal_directed w1Store 21 "Alicia" "Mia"
      = (.error (.conflictError "El animal no está disponible para adopción"), w1Store)
    ∧ countAdoptions (adopt_animal_directed w1Store 21 "Alicia" "Mia").2 2 = 1 :=
  adopt_directed_conflict_on_adopted w1Store 21 "Alicia" "Mia"
    ⟨1, "Alicia", "a@b.co"⟩ ⟨2, "Mia", some 7, "gato", true⟩
    (by unfold UniqueAnimalIds; decide) (by decide) (by decide) (by decide) (by decide)

/-! ### C4 -/

/-- C4 is violated by the code on the user side: both `UsersSchema`
validators are defined under the same method name `lenght_name`
(main.py:98, 104), so the phone validator shadows the name-length validator
and a 2-character user name passes validation, reaches the store, and is
inserted.  On the animal side the claim holds: `lenght_name_1` rejects any
name shorter than 3 characters regardless of the other fields, before any
store access. -/
theorem short_user_name_accepted :
    (create_user emptyStore ⟨"ab", "a@b.co", some 123456789, "Calle 1"⟩).1
      = .ok ⟨1, "ab", "a@b.co"⟩
    ∧ (create_user emptyStore ⟨"ab", "a@b.co", some 123456789, "Calle 1"⟩).2 ≠ emptyStore
    ∧ (∀ (s : Store) (edad : Option Nat) (tipo : String),
        create_animal s ⟨"ab", edad, tipo⟩
          = (.error (.validationError "El nombre debe tener al menos 3 caracteres"), s)) := by
  refine ⟨by decide, by decide, ?_⟩
  intro s edad tipo
  rfl

/-! ### C5 -/

/-- C5: `validar_tipo` accepts a kind value exactly when it is `"perro"` or
`"gato"` (the spec's `dog` / `cat` enum); with any other value, animal
registration fails with a `ValidationError` and the store is untouched. -/
theorem animal_kind_validated :
    (∀ t : String, validar_tipo_ok t = true ↔ (t = "perro" ∨ t = "gato"))
    ∧ (∀ (s : Store) (a : AnimalSchemaInput), validar_tipo_ok a.tipo = false →
        ∃ msg, create_animal s a = (.error (.validationError msg), s)) := by
  constructor
  · intro t
    simp [validar_tipo_ok]
  · intro s a hbad
    unfold create_animal animalSchemaError
    by_cases hn : a.nombre.length < 3
    · rw [if_pos hn]
      exact ⟨"El nombre debe tener al menos 3 caracteres", rfl⟩
    · rw [if_neg hn, hbad]
      exact ⟨"El tipo debe ser 'perro' o 'gato'", rfl⟩

theorem animal_kind_validated_witness :
    validar_tipo_ok "perro" = true
    ∧ validar_tipo_ok "bird" = false
    ∧ ∃ msg, create_animal emptyStore ⟨"Rex", some 4, "bird"⟩
        = (.error (.validationError msg), emptyStore) :=
  ⟨(animal_kind_validated.1 "perro").mpr (Or.inl rfl), by decide,
   animal_kind_validated.2 emptyStore ⟨"Rex", some 4, "bird"⟩ (by decide)⟩

/-! ### C6 -/

/-- Number of user rows carrying a given email. -/
def countUsersByEmail (s : Store) (e : String) : Nat :=
  (s.users.filter (fun r => r.email == e)).length

/-- Inversion of a successful user registration: validation passed, no row
with that email existed, and the result store appends the one new row. -/
theorem create_user_ok {s : Store} {u : UsersSchemaInput} {r : UserResponse}
    (h : (create_user s u).1 = .ok r) :
    usersSchemaError u = none
    ∧ s.users.find? (fun x => x.email == u.email) = none
    ∧ (create_user s u).2
        = { s with
            users := s.users ++ [⟨s.nextUserId, u.nombre, u.email⟩],
            nextUserId := s.nextUserId + 1 } := by
  unfold create_user at h ⊢
  cases hv : usersSchemaError u with
  | some e =>
    rw [hv] at h
    exact Except.noConfusion h
  | none =>
    rw [hv] at h
    dsimp only at h ⊢
    cases hf : s.users.find? (fun x => x.email == u.email) with
    | some w =>
      rw [hf] at h
      exact Except.noConfusion h
    | none => exact ⟨rfl, rfl, rfl⟩

/-- Registering a user whose email is already present fails with the
duplicate error and changes nothing. -/
theorem create_user_dup {s : Store} {u : UsersSchemaInput} {w : UserRow}
    (hv : usersSchemaError u = none)
    (hf : s.users.find? (fun x => x.email == u.email) = some w) :
    create_user s u = (.error (.duplicateError "El usuario ya está registrado"), s) := by
  unfold create_user
  rw [hv]
  dsimp only
  rw [hf]

/-- C6: when a user registration succeeds, a second valid registration with
the same email fails with `DuplicateError` (`"El usuario ya está
registrado"`), leaves the store unchanged, and the store holds exactly one
user row with that email after either call. -/
theorem duplicate_email_second_fails (s : Store) (u1 u2 : UsersSchemaInput)
    (r : UserResponse)
    (hemail : u2.email = u1.email)
    (hv2 : usersSchemaError u2 = none)
    (h1 : (create_user s u1).1 = .ok r) :
    (create_user (create_user s u1).2 u2).1
      = .error (.duplicateError "El usuario ya está registrado")
    ∧ (create_user (create_user s u1).2 u2).2 = (create_user s u1).2
    ∧ countUsersByEmail (create_user s u1).2 u1.email = 1
    ∧ countUsersByEmail (create_user (create_user s u1).2 u2).2 u1.email = 1 := by
  obtain ⟨hv1, hf1, hs1⟩ := create_user_ok h1
  have hrowmem : (⟨s.nextUserId, u1.nombre, u1.email⟩ : UserRow) ∈ (create_user s u1).2.users := by
    rw [hs1]
    exact List.mem_append_right _ (by simp)
  obtain ⟨w, hw⟩ : ∃ w, (create_user s u1).2.users.find? (fun x => x.email == u2.email) = some w := by
    cases hf : (create_user s u1).2.users.find? (fun x => x.email == u2.email) with
    | some w => exact ⟨w, rfl⟩
    | none =>
      have hno := List.find?_eq_none.mp hf _ hrowmem
      simp [hemail] at hno
  have heq2 := create_user_dup hv2 hw
  have hcount1 : countUsersByEmail (create_user s u1).2 u1.email = 1 := by
    have hfil : s.users.filter (fun x => x.email == u1.email) = [] := by
      rw [List.filter_eq_nil_iff]
      exact List.find?_eq_none.mp hf1
    unfold countUsersByEmail
    rw [hs1]
    dsimp only
    rw [List.filter_append, hfil]
    simp
  exact ⟨by rw [heq2], by rw [heq2], hcount1, by rw [heq2]; exact hcount1⟩

theorem duplicate_email_second_fails_witness :
    (create_user (create_user emptyStore ⟨"Alicia", "a@b.co", none, "Calle 1"⟩).2
        ⟨"Roberto", "a@b.co", some 123456789, "Calle 2"⟩).1
      = .error (.duplicateError "El usuario ya está registrado")
    ∧ (create_user (create_user emptyStore ⟨"Alicia", "a@b.co", none, "Calle 1"⟩).2
        ⟨"Roberto", "a@b.co", some 123456789, "Calle 2"⟩).2
      = (create_user emptyStore ⟨"Alicia", "a@b.co", none, "Calle 1"⟩).2
    ∧ countUsersByEmail (create_user emptyStore ⟨"Alicia", "a@b.co", none, "Calle 1"⟩).2
        "a@b.co" = 1
    ∧ countUsersByEmail (create_user (create_user emptyStore ⟨"Alicia", "a@b.co", none, "Calle 1"⟩).2
        ⟨"Roberto", "a@b.co", some 123456789, "Calle 2"⟩).2 "a@b.co" = 1 :=
  duplicate_email_second_fails emptyStore ⟨"Alicia", "a@b.co", none, "Calle 1"⟩
    ⟨"Roberto", "a@b.co", some 123456789, "Calle 2"⟩ ⟨1, "Alicia", "a@b.co"⟩
    (by decide) (by decide) (by decide)

/-! ### C7 -/

/-- C7 (amended): listing available animals returns exactly the rows with
`adoptado = false` that match the kind filter — where the falsy filters
`None` and `""` match every animal — rendered in store order as
`(nombre, edad, tipo)` tuples; an adopted animal never appears in the
result, for any filter. -/
theorem get_available_exact (s : Store) (tipo : Option String) :
    (get_available_animals s tipo).1
      = (s.animals.filter (fun a => a.adoptado == false && matchesFilter tipo a)).map
          (fun a => (a.nombre, a.edad, a.tipo))
    ∧ (∀ p ∈ (get_available_animals s tipo).1,
        ∃ a, a ∈ s.animals ∧ a.adoptado = false ∧ matchesFilter tipo a = true
          ∧ p = (a.nombre, a.edad, a.tipo)) := by
  constructor
  · unfold get_available_animals
    rw [availQuery_eq]
  · intro p hp
    unfold get_available_animals at hp
    dsimp only at hp
    rw [List.mem_map] at hp
    obtain ⟨a, ha, rfl⟩ := hp
    have hm := mem_availQuery.mp ha
    exact ⟨a, hm.1, hm.2.1, hm.2.2, rfl⟩

/-- C7 counterexample: with the filter `""`, the claim as stated returns
only the available rows whose `tipo` equals `""` — there are none — but the
code treats the falsy filter as absent and lists Rex. -/
theorem get_available_claim_cex :
    w1Store.animals.filter (fun a => a.adoptado == false && a.tipo == "") = []
    ∧ (get_available_animals w1Store (some "")).1 = [("Rex", some 4, "perro")] := by
  decide

theorem get_available_exact_witness :
    (get_available_animals w1Store none).1
      = (w1Store.animals.filter (fun a => a.adoptado == false && matchesFilter none a)).map
          (fun a => (a.nombre, a.edad, a.tipo))
    ∧ ∃ a, a ∈ w1Store.animals ∧ a.adoptado = false ∧ matchesFilter none a = true
        ∧ (("Rex", some 4, "perro") : String × Option Nat × String)
            = (a.nombre, a.edad, a.tipo) :=
  ⟨(get_available_exact w1Store none).1,
   (get_available_exact w1Store none).2 ("Rex", some 4, "perro") (by decide)⟩

/-! ### C8 -/

/-- C8: listing available animals is a pure read: it returns the store
exactly as it was, and an immediate second call on the store it returns —
with no mutation in between — yields the identical result. -/
theorem get_available_pure (s : Store) (tipo : Option String) :
    (get_available_animals s tipo).2 = s
    ∧ (get_available_animals (get_available_animals s tipo).2 tipo).1
        = (get_available_animals s tipo).1 :=
  ⟨rfl, rfl⟩

/-! ### C9 -/

/-- Every animal row carries a valid kind; animal registration establishes
this because `AnimalSchema` validates `tipo`. -/
def KindInv (s : Store) : Prop :=
  ∀ a ∈ s.animals, a.tipo = "perro" ∨ a.tipo = "gato"

/-- C9 (amended): the kind filter of listing and of random adoption is never
validated against the kind enum, and neither operation can raise a
`ValidationError`; for a NONEMPTY filter string outside `{perro, gato}`,
listing returns the empty result and random adoption (by a registered user,
over a store whose animals all carry valid kinds) fails with
`NotFoundError("No hay animales disponibles para adopción")` — while the
empty string, being falsy in Python, is treated as no filter at all. -/
theorem kind_filter_not_validated (s : Store) (t : String) (today : Nat)
    (un : String) (u : UserRow)
    (hk : KindInv s)
    (ht : t ≠ "") (hperro : t ≠ "perro") (hgato : t ≠ "gato")
    (hu : s.users.find? (fun r => r.nombre == un) = some u) :
    (get_available_animals s (some t)).1 = []
    ∧ adopt_animal_random s today un (some t)
        = (.error (.notFoundError "No hay animales disponibles para adopción"), s) := by
  have htt : tipoTruthy (some t) = true := by simp [tipoTruthy, ht]
  have hnil : availQuery s (some t) = [] := by
    unfold availQuery
    rw [if_pos htt, List.filter_eq_nil_iff]
    intro a ha
    simp only [Bool.and_eq_true, beq_iff_eq]
    rintro ⟨h1, h2⟩
    injection h2 with h2
    rcases hk a ha with hh | hh
    · rw [hh] at h2
      exact hperro h2.symm
    · rw [hh] at h2
      exact hgato h2.symm
  constructor
  · unfold get_available_animals
    rw [hnil]
    rfl
  · unfold adopt_animal_random
    rw [hu]
    dsimp only
    rw [hnil]
    rfl

/-- C9 counterexample: the empty string lies outside `{perro, gato}`, yet
listing with the filter `""` returns a nonempty result and random adoption
with it succeeds, where the claim as stated demands an empty listing and a
`NotFoundError`. -/
theorem kind_filter_claim_cex :
    ("" = "perro" ∨ "" = "gato" → False)
    ∧ (get_available_animals w1Store (some "")).1 = [("Rex", some 4, "perro")]
    ∧ (adopt_animal_random w1Store 30 "Alicia" (some "")).1 = .ok ⟨"Rex", "Alicia"⟩ := by
  decide

theorem kind_filter_not_validated_witness :
    KindInv w1Store
    ∧ w1Store.users.find? (fun r => r.nombre == "Alicia") = some ⟨1, "Alicia", "a@b.co"⟩
    ∧ ((get_available_animals w1Store (some "bird")).1 = []
      ∧ adopt_animal_random w1Store 30 "Alicia" (some "bird")
          = (.error (.notFoundError "No hay animales disponibles para adopción"), w1Store)) :=
  ⟨by unfold KindInv; decide, by decide,
   kind_filter_not_validated w1Store "bird" 30 "Alicia" ⟨1, "Alicia", "a@b.co"⟩
     (by unfold KindInv; decide) (by decide) (by decide) (by decide) (by decide)⟩

/-! ### C10 -/

/-- C10: `create_user` persists only `nombre` and `email` — the `users`
table has no phone or address column — so two valid registration requests
agreeing on name and email produce the identical response and the identical
store, whatever their `telefono` and `direccion`. -/
theorem phone_address_not_persisted (s : Store) (u1 u2 : UsersSchemaInput)
    (hn : u1.nombre = u2.nombre) (he : u1.email = u2.email)
    (hv1 : usersSchemaError u1 = none) (hv2 : usersSchemaError u2 = none) :
    create_user s u1 = create_user s u2 := by
  unfold create_user
  rw [hv1, hv2, he, hn]

theorem phone_address_not_persisted_witness :
    create_user emptyStore ⟨"Alicia", "a@b.co", some 123456789, "Calle 1"⟩
      = create_user emptyStore ⟨"Alicia", "a@b.co", none, "Calle 2"⟩ :=
  phone_address_not_persisted emptyStore
    ⟨"Alicia", "a@b.co", some 123456789, "Calle 1"⟩
    ⟨"Alicia", "a@b.co", none, "Calle 2"⟩
    rfl rfl (by decide) (by decide)

end Shelter
